import Mathlib

/-!
Shallow embedding of the SignOz schema-migrator TLS wrapper
(`cmd/signozschemamigrator/schema_migrator/tls_migrator.go` and the CLI
`main` package) together with proofs of the spec's claims about it.

External effects (filesystem reads, TLS parsing, the ClickHouse client and
the external `MigrationManager`) are abstracted into explicit environment
records whose fields give the outcome of each call; every effectful call
performed by the embedded code is additionally recorded in an event trace,
so that "no I/O happens before X" and "stage order" become statements about
that trace.
-/

set_option autoImplicit false

namespace SchemaMigrator

/-- Go error values as produced by this code base: either a fresh error
(`fmt.Errorf` / `errors.New` without `%w`) carrying a message, or a wrapping
error (`fmt.Errorf("msg: %w", err)`) carrying the added message and the
wrapped cause. -/
inductive GoErr where
  | base (msg : String)
  | wrap (msg : String) (cause : GoErr)
  deriving DecidableEq, Repr

/-- Whether a Go error is a wrapping error (was built with `%w`). -/
def GoErr.isWrap : GoErr → Bool
  | .base _ => false
  | .wrap _ _ => true

/-- A parsed client certificate/key pair (`tls.Certificate`), opaque to this
wrapper: the code only stores it into the TLS configuration. -/
abbrev Certificate := Unit

/-- The subset of `tls.Config` this code constructs: the client certificates
and the root-CA pool.  The pool is modelled by the list of PEM byte strings
successfully appended to it. -/
structure TLSConfig where
  certificates : List Certificate
  rootCAs : List String
  deriving DecidableEq, Repr

/-- Abstraction of the filesystem plus the crypto library, as seen through
the four external calls this code makes.  `stat` models `os.Stat` (only
success/failure is observed), `readFile` models `os.ReadFile`,
`loadKeyPair` models `tls.LoadX509KeyPair` on a pair of paths, and `pemOk`
tells whether a byte string parses as at least one PEM certificate
(the condition under which `x509.CertPool.AppendCertsFromPEM` returns
`true`). -/
structure FS where
  stat : String → Except GoErr Unit
  readFile : String → Except GoErr String
  loadKeyPair : String → String → Except GoErr Certificate
  pemOk : String → Bool

/-- `x509.CertPool.AppendCertsFromPEM`: appends the certificates found in
`caCert` to the pool and reports whether any certificate was parsed. -/
def x509AppendCertsFromPEM (pemOk : String → Bool) (pool : List String)
    (caCert : String) : List String × Bool :=
  if pemOk caCert then (pool ++ [caCert], true) else (pool, false)

/-- `MigrateArgs` from `tls_migrator.go`: the arguments for a sync migration
run.  Version identifiers are `uint64` in Go; the CLI parser below only ever
produces values `< 2^64`. -/
structure MigrateArgs where
  DSN : String
  ClusterName : String
  ReplicationEnabled : Bool
  Development : Bool
  UpVersions : List Nat
  DownVersions : List Nat
  CertDir : String
  CertName : String
  KeyName : String
  CAName : String
  deriving Repr

/-- Events recording each external (file or network) call the embedded code
performs, in order. -/
inductive Event where
  | parseDSNCall (dsn : String)
  | loadKeyPairCall (certFile keyFile : String)
  | readFileCall (path : String)
  | openCall
  | newManagerCall
  | bootstrapCall
  | runSquashedCall
  | migrateUpSyncCall (versions : List Nat)
  | migrateDownSyncCall (versions : List Nat)
  | migrateUpAsyncCall (versions : List Nat)
  | migrateDownAsyncCall (versions : List Nat)
  | pingCall
  | closeCall
  | runSyncMigrateCall
  deriving DecidableEq, Repr

/-- `createTLSConfig` from `tls_migrator.go` (the identical function also
appears in the CLI `main` package): build the file paths from the directory
and the three names, load the client key pair, read the CA file, append it
to a fresh pool ignoring the append result, and assemble the `tls.Config`.
Returns the result together with the trace of external calls made. -/
def createTLSConfig (fs : FS) (args : MigrateArgs) :
    Except GoErr TLSConfig × List Event :=
  let certFile := args.CertDir ++ "/" ++ args.CertName
  let privateKeyFile := args.CertDir ++ "/" ++ args.KeyName
  let caFile := args.CertDir ++ "/" ++ args.CAName
  match fs.loadKeyPair certFile privateKeyFile with
  | .error e =>
      (.error (.wrap "failed to load client key pair" e),
       [.loadKeyPairCall certFile privateKeyFile])
  | .ok cert =>
      match fs.readFile caFile with
      | .error e =>
          (.error (.wrap "failed to read ca certificate" e),
           [.loadKeyPairCall certFile privateKeyFile, .readFileCall caFile])
      | .ok caCert =>
          let caCertPool := x509AppendCertsFromPEM fs.pemOk [] caCert
          (.ok { certificates := [cert], rootCAs := caCertPool.1 },
           [.loadKeyPairCall certFile privateKeyFile, .readFileCall caFile])

/-- `ValidateTLSConfig` from `tls_migrator.go`: stat each of the three
files, then load the cert/key pair, then read the CA file and require that
`AppendCertsFromPEM` succeeds on its contents. -/
def ValidateTLSConfig (fs : FS) (args : MigrateArgs) : Except GoErr Unit :=
  let certFile := args.CertDir ++ "/" ++ args.CertName
  let keyFile := args.CertDir ++ "/" ++ args.KeyName
  let caFile := args.CertDir ++ "/" ++ args.CAName
  match fs.stat certFile with
  | .error e => .error (.wrap "certificate file not accessible" e)
  | .ok _ =>
  match fs.stat keyFile with
  | .error e => .error (.wrap "key file not accessible" e)
  | .ok _ =>
  match fs.stat caFile with
  | .error e => .error (.wrap "CA file not accessible" e)
  | .ok _ =>
  match fs.loadKeyPair certFile keyFile with
  | .error e => .error (.wrap "failed to load certificate pair" e)
  | .ok _ =>
  match fs.readFile caFile with
  | .error e => .error (.wrap "failed to read CA certificate" e)
  | .ok caCert =>
  if (x509AppendCertsFromPEM fs.pemOk [] caCert).2 then .ok ()
  else .error (.base "failed to parse CA certificate")

/-- Environment giving the outcome of every external call the wrapper can
make: the filesystem/crypto layer, `clickhouse.ParseDSN` (its parsed options
are opaque here), `clickhouse.Open`, `NewMigrationManager`, and the methods
of the resulting manager and connection. -/
structure Env where
  fs : FS
  parseDSN : String → Except GoErr Unit
  openConn : Except GoErr Unit
  newManager : Except GoErr Unit
  bootstrap : Except GoErr Unit
  runSquashed : Except GoErr Unit
  migrateUpSync : List Nat → Except GoErr Unit
  migrateDownSync : List Nat → Except GoErr Unit
  migrateUpAsync : List Nat → Except GoErr Unit
  migrateDownAsync : List Nat → Except GoErr Unit
  ping : Except GoErr Unit

/-- `RunSyncMigrate` from `tls_migrator.go` (the CLI `main` package contains
the same function verbatim, over its lowercase argument struct): reject
simultaneous up and down version lists, then in order parse the DSN, build
the TLS config, open the connection, construct the migration manager, run
bootstrap, run the squashed migrations, and finally run exactly one of the
down or up sync migrations, whose result is returned as is.  Every error of
an earlier stage is returned wrapped with that stage's message and stops the
sequence. -/
def RunSyncMigrate (env : Env) (args : MigrateArgs) :
    Except GoErr Unit × List Event :=
  if args.UpVersions.length != 0 && args.DownVersions.length != 0 then
    (.error (.base "cannot provide both up and down migrations"), [])
  else
    match env.parseDSN args.DSN with
    | .error e => (.error (.wrap "failed to parse dsn" e), [.parseDSNCall args.DSN])
    | .ok _ =>
      let tls := createTLSConfig env.fs args
      let tr := Event.parseDSNCall args.DSN :: tls.2
      match tls.1 with
      | .error e => (.error (.wrap "failed to get tls config" e), tr)
      | .ok _ =>
        match env.openConn with
        | .error e => (.error (.wrap "failed to open connection" e), tr ++ [.openCall])
        | .ok _ =>
          match env.newManager with
          | .error e =>
              (.error (.wrap "failed to create migration manager" e),
               tr ++ [.openCall, .newManagerCall])
          | .ok _ =>
            match env.bootstrap with
            | .error e =>
                (.error (.wrap "failed to bootstrap migrations" e),
                 tr ++ [.openCall, .newManagerCall, .bootstrapCall])
            | .ok _ =>
              match env.runSquashed with
              | .error e =>
                  (.error (.wrap "failed to run squashed migrations" e),
                   tr ++ [.openCall, .newManagerCall, .bootstrapCall, .runSquashedCall])
              | .ok _ =>
                if args.DownVersions.length != 0 then
                  (env.migrateDownSync args.DownVersions,
                   tr ++ [.openCall, .newManagerCall, .bootstrapCall, .runSquashedCall,
                          .migrateDownSyncCall args.DownVersions])
                else
                  (env.migrateUpSync args.UpVersions,
                   tr ++ [.openCall, .newManagerCall, .bootstrapCall, .runSquashedCall,
                          .migrateUpSyncCall args.UpVersions])

/-- `TestConnection` from `tls_migrator.go`: parse the DSN, build the TLS
config, open a connection, and ping it; `defer conn.Close()` closes the
connection when the function returns, after the ping, on both ping
outcomes. -/
def TestConnection (env : Env) (args : MigrateArgs) :
    Except GoErr Unit × List Event :=
  match env.parseDSN args.DSN with
  | .error e => (.error (.wrap "failed to parse DSN" e), [.parseDSNCall args.DSN])
  | .ok _ =>
    let tls := createTLSConfig env.fs args
    let tr := Event.parseDSNCall args.DSN :: tls.2
    match tls.1 with
    | .error e => (.error (.wrap "failed to create TLS config" e), tr)
    | .ok _ =>
      match env.openConn with
      | .error e => (.error (.wrap "failed to open connection" e), tr ++ [.openCall])
      | .ok _ =>
        match env.ping with
        | .error e =>
            (.error (.wrap "failed to ping database" e),
             tr ++ [.openCall, .pingCall, .closeCall])
        | .ok _ => (.ok (), tr ++ [.openCall, .pingCall, .closeCall])

/-! ### CLI layer (`main` package)

The cobra flag set visible to a subcommand's `RunE` is modelled as a list of
named string flags: the subcommand's local flags (`--up`, `--down`) together
with the root command's persistent flags (`--dsn`, `--replication`,
`--cluster-name`, `--dev`).  `Flags().Lookup` returns `none` for a name no
flag was registered under; the Go code dereferences the result without a nil
check, which is modelled by a `panicked` outcome. -/

/-- A registered pflag with its current string value. -/
structure Flag where
  name : String
  value : String
  deriving DecidableEq, Repr

/-- `cmd.Flags().Lookup(name)`: the flag registered under `name`, if any. -/
def lookupFlag (flags : List Flag) (name : String) : Option Flag :=
  flags.find? (fun f => f.name == name)

/-- The flag set of the `sync` and `async` subcommands at `RunE` time: each
registers local `--up`/`--down` string flags (default `""`) and inherits the
root command's persistent `--dsn`, `--replication`, `--cluster-name`,
`--dev`.  No other flag is registered anywhere in `main`. -/
def subcommandFlags (dsnV replV clusterV devV upV downV : String) : List Flag :=
  [⟨"up", upV⟩, ⟨"down", downV⟩,
   ⟨"dsn", dsnV⟩, ⟨"replication", replV⟩, ⟨"cluster-name", clusterV⟩, ⟨"dev", devV⟩]

/-- The numeric value of an ASCII decimal digit. -/
def digitVal (c : Char) : Option Nat :=
  if '0' ≤ c ∧ c ≤ '9' then some (c.toNat - '0'.toNat) else none

/-- `strconv.ParseUint(s, 10, 64)`: succeeds exactly on a non-empty string
of decimal digits whose value fits in 64 bits. -/
def parseUint64 (s : String) : Option Nat :=
  if s.data.isEmpty then none
  else do
    let n ← s.data.foldlM (fun acc c => (digitVal c).map (fun d => acc * 10 + d)) 0
    if n < 2 ^ 64 then some n else none

/-- Helper for `stringsSplitComma`: walk the characters, cutting a field at
every comma; `acc` holds the current field's characters in reverse. -/
def splitCommaAux : List Char → List Char → List String
  | [], acc => [String.mk acc.reverse]
  | c :: rest, acc =>
      if c = ',' then String.mk acc.reverse :: splitCommaAux rest []
      else splitCommaAux rest (c :: acc)

/-- `strings.Split(s, ",")`: the comma-separated fields of `s`; the empty
string yields the single empty field, and adjacent commas yield empty
fields. -/
def stringsSplitComma (s : String) : List String :=
  splitCommaAux s.data []

/-- The version-list parsing loop shared (textually repeated) by the `sync`
and `async` `RunE` bodies, for both the `--up` and `--down` values: split on
`,`, skip empty tokens, parse each remaining token as a `uint64` and append
it; a token that fails to parse aborts with the wrapped
`failed to parse version` error.  The underlying `strconv` error is
abstracted to the offending token. -/
def parseVersions (s : String) : Except GoErr (List Nat) :=
  (stringsSplitComma s).foldlM
    (fun acc version =>
      if version = "" then .ok acc
      else
        match parseUint64 version with
        | none => .error (.wrap "failed to parse version" (.base version))
        | some v => .ok (acc ++ [v]))
    []

/-- The parsing loop of `parseVersions` over an explicit token list with an
explicit accumulator (the loop body is the same term), used to reason about
`parseVersions` by induction on the tokens. -/
def parseVersionsLoop (l : List String) (acc : List Nat) : Except GoErr (List Nat) :=
  l.foldlM
    (fun acc version =>
      if version = "" then .ok acc
      else
        match parseUint64 version with
        | none => .error (.wrap "failed to parse version" (.base version))
        | some v => .ok (acc ++ [v]))
    acc

/-- Outcome of a cobra `RunE` body: normal return, returned error, or a Go
runtime panic (here: the nil-pointer dereference of a missing flag). -/
inductive RunEOutcome where
  | ok
  | err (e : GoErr)
  | panicked (msg : String)
  deriving DecidableEq, Repr

/-- Map a Go-style result to a `RunE` outcome. -/
def toOutcome : Except GoErr Unit → RunEOutcome
  | .ok _ => .ok
  | .error e => .err e

/-- The message of the Go runtime panic raised by calling `.Value.String()`
on the nil result of looking up an unregistered flag. -/
def nilFlagPanic : String :=
  "runtime error: invalid memory address or nil pointer dereference"

/-- The `RunE` body of the `sync` subcommand (`registerSyncMigrate`): look
up `dsn`, `replication`, `cluster-name`, `dev`, parse the `up` and `down`
version lists, look up `cert-dir`, `cert-name`, `key-name`, `ca-name`, and
call `RunSyncMigrate` on the assembled arguments.  Every flag lookup is
dereferenced without a nil check. -/
def syncRunE (flags : List Flag) (env : Env) : RunEOutcome × List Event :=
  match lookupFlag flags "dsn" with
  | none => (.panicked nilFlagPanic, [])
  | some dsnF =>
  match lookupFlag flags "replication" with
  | none => (.panicked nilFlagPanic, [])
  | some replF =>
  match lookupFlag flags "cluster-name" with
  | none => (.panicked nilFlagPanic, [])
  | some clusterF =>
  match lookupFlag flags "dev" with
  | none => (.panicked nilFlagPanic, [])
  | some devF =>
  match lookupFlag flags "up" with
  | none => (.panicked nilFlagPanic, [])
  | some upF =>
  match parseVersions upF.value with
  | .error e => (.err e, [])
  | .ok upVersions =>
  match lookupFlag flags "down" with
  | none => (.panicked nilFlagPanic, [])
  | some downF =>
  match parseVersions downF.value with
  | .error e => (.err e, [])
  | .ok downVersions =>
  match lookupFlag flags "cert-dir" with
  | none => (.panicked nilFlagPanic, [])
  | some certDirF =>
  match lookupFlag flags "cert-name" with
  | none => (.panicked nilFlagPanic, [])
  | some certNameF =>
  match lookupFlag flags "key-name" with
  | none => (.panicked nilFlagPanic, [])
  | some keyNameF =>
  match lookupFlag flags "ca-name" with
  | none => (.panicked nilFlagPanic, [])
  | some caNameF =>
  let r := RunSyncMigrate env
    { DSN := dsnF.value
      ClusterName := clusterF.value
      ReplicationEnabled := replF.value.toLower == "true"
      Development := devF.value.toLower == "true"
      UpVersions := upVersions
      DownVersions := downVersions
      CertDir := certDirF.value
      CertName := certNameF.value
      KeyName := keyNameF.value
      CAName := caNameF.value }
  (toOutcome r.1, Event.runSyncMigrateCall :: r.2)

/-- The `RunE` body of the `async` subcommand (`registerAsyncMigrate`):
look up the persistent flags, parse the `up` and `down` version lists,
reject simultaneous up and down lists, then parse the DSN, open a
connection (no TLS on this path), construct the manager, and run exactly
one of the async down or up migrations. -/
def asyncRunE (flags : List Flag) (env : Env) : RunEOutcome × List Event :=
  match lookupFlag flags "dsn" with
  | none => (.panicked nilFlagPanic, [])
  | some dsnF =>
  match lookupFlag flags "replication" with
  | none => (.panicked nilFlagPanic, [])
  | some _replF =>
  match lookupFlag flags "cluster-name" with
  | none => (.panicked nilFlagPanic, [])
  | some _clusterF =>
  match lookupFlag flags "dev" with
  | none => (.panicked nilFlagPanic, [])
  | some _devF =>
  match lookupFlag flags "up" with
  | none => (.panicked nilFlagPanic, [])
  | some upF =>
  match parseVersions upF.value with
  | .error e => (.err e, [])
  | .ok upVersions =>
  match lookupFlag flags "down" with
  | none => (.panicked nilFlagPanic, [])
  | some downF =>
  match parseVersions downF.value with
  | .error e => (.err e, [])
  | .ok downVersions =>
  if upVersions.length != 0 && downVersions.length != 0 then
    (.err (.base "cannot provide both up and down migrations"), [])
  else
    match env.parseDSN dsnF.value with
    | .error e => (.err (.wrap "failed to parse dsn" e), [.parseDSNCall dsnF.value])
    | .ok _ =>
      match env.openConn with
      | .error e =>
          (.err (.wrap "failed to open connection" e),
           [.parseDSNCall dsnF.value, .openCall])
      | .ok _ =>
        match env.newManager with
        | .error e =>
            (.err (.wrap "failed to create migration manager" e),
             [.parseDSNCall dsnF.value, .openCall, .newManagerCall])
        | .ok _ =>
          if downVersions.length != 0 then
            (toOutcome (env.migrateDownAsync downVersions),
             [.parseDSNCall dsnF.value, .openCall, .newManagerCall,
              .migrateDownAsyncCall downVersions])
          else
            (toOutcome (env.migrateUpAsync upVersions),
             [.parseDSNCall dsnF.value, .openCall, .newManagerCall,
              .migrateUpAsyncCall upVersions])

/-! ### Concrete fixtures for witnesses and counterexamples -/

/-- Arguments with the library's default certificate file names and empty
version lists. -/
def argsW : MigrateArgs :=
  { DSN := "tcp://localhost:9000"
    ClusterName := "cluster"
    ReplicationEnabled := false
    Development := false
    UpVersions := []
    DownVersions := []
    CertDir := "/tmp/certs"
    CertName := "fullchain.crt"
    KeyName := "private_migration.key"
    CAName := "partialchain.crt" }

/-- Arguments with both an up and a down version list. -/
def argsBothUpDown : MigrateArgs := { argsW with UpVersions := [1], DownVersions := [2] }

/-- A filesystem state on which every certificate operation succeeds. -/
def fsAllGood : FS :=
  { stat := fun _ => .ok ()
    readFile := fun _ => .ok "PEM CERTIFICATE DATA"
    loadKeyPair := fun _ _ => .ok ()
    pemOk := fun _ => true }

/-- A filesystem state where all three files exist and the cert/key pair
loads, but the CA file's bytes are not valid PEM certificate data. -/
def fsBadCA : FS :=
  { stat := fun _ => .ok ()
    readFile := fun _ => .ok "this is not a certificate"
    loadKeyPair := fun _ _ => .ok ()
    pemOk := fun _ => false }

/-- An environment in which every external call succeeds. -/
def envAllGood : Env :=
  { fs := fsAllGood
    parseDSN := fun _ => .ok ()
    openConn := .ok ()
    newManager := .ok ()
    bootstrap := .ok ()
    runSquashed := .ok ()
    migrateUpSync := fun _ => .ok ()
    migrateDownSync := fun _ => .ok ()
    migrateUpAsync := fun _ => .ok ()
    migrateDownAsync := fun _ => .ok ()
    ping := .ok () }

/-- Like `envAllGood` but the liveness ping fails. -/
def envPingFail : Env := { envAllGood with ping := .error (.base "connection refused") }

/-- Like `envAllGood` but the final sync up-migration fails. -/
def envUpFail : Env := { envAllGood with migrateUpSync := fun _ => .error (.base "boom") }

/-- Like `envAllGood` but DSN parsing fails. -/
def envParseFail : Env := { envAllGood with parseDSN := fun _ => .error (.base "bad dsn") }

/-! ### Theorems for the claims -/

/-- C4: when the three certificate files exist, the cert/key pair loads, and
the CA file is readable but its content is not valid PEM certificate data,
`ValidateTLSConfig` fails with the bare `failed to parse CA certificate`
error; that error is not a wrapping error and differs from each of the three
file-inaccessible errors, which are exactly what `ValidateTLSConfig` returns
when one of the three files fails to stat. -/
theorem validate_malformed_ca_distinct_error :
    (∀ (fs : FS) (args : MigrateArgs) (ca : String),
      fs.stat (args.CertDir ++ "/" ++ args.CertName) = .ok () →
      fs.stat (args.CertDir ++ "/" ++ args.KeyName) = .ok () →
      fs.stat (args.CertDir ++ "/" ++ args.CAName) = .ok () →
      fs.loadKeyPair (args.CertDir ++ "/" ++ args.CertName)
        (args.CertDir ++ "/" ++ args.KeyName) = .ok () →
      fs.readFile (args.CertDir ++ "/" ++ args.CAName) = .ok ca →
      fs.pemOk ca = false →
      ValidateTLSConfig fs args = .error (.base "failed to parse CA certificate"))
    ∧ (∀ (fs : FS) (args : MigrateArgs) (e : GoErr),
      fs.stat (args.CertDir ++ "/" ++ args.CertName) = .error e →
      ValidateTLSConfig fs args = .error (.wrap "certificate file not accessible" e))
    ∧ (∀ (fs : FS) (args : MigrateArgs) (e : GoErr),
      fs.stat (args.CertDir ++ "/" ++ args.CertName) = .ok () →
      fs.stat (args.CertDir ++ "/" ++ args.KeyName) = .error e →
      ValidateTLSConfig fs args = .error (.wrap "key file not accessible" e))
    ∧ (∀ (fs : FS) (args : MigrateArgs) (e : GoErr),
      fs.stat (args.CertDir ++ "/" ++ args.CertName) = .ok () →
      fs.stat (args.CertDir ++ "/" ++ args.KeyName) = .ok () →
      fs.stat (args.CertDir ++ "/" ++ args.CAName) = .error e →
      ValidateTLSConfig fs args = .error (.wrap "CA file not accessible" e))
    ∧ (∀ e : GoErr,
      GoErr.base "failed to parse CA certificate" ≠ .wrap "certificate file not accessible" e
      ∧ GoErr.base "failed to parse CA certificate" ≠ .wrap "key file not accessible" e
      ∧ GoErr.base "failed to parse CA certificate" ≠ .wrap "CA file not accessible" e) := by
  refine ⟨?_, ?_, ?_, ?_, ?_⟩
  · intro fs args ca hc hk ha hl hr hp
    simp [ValidateTLSConfig, hc, hk, ha, hl, hr, x509AppendCertsFromPEM, hp]
  · intro fs args e hc
    simp [ValidateTLSConfig, hc]
  · intro fs args e hc hk
    simp [ValidateTLSConfig, hc, hk]
  · intro fs args e hc hk ha
    simp [ValidateTLSConfig, hc, hk, ha]
  · intro e
    refine ⟨?_, ?_, ?_⟩ <;> intro h <;> cases h

/-- Witness for C4: on a concrete filesystem with all files present and a
non-PEM CA file, validation fails with exactly the CA-parse error. -/
theorem validate_malformed_ca_distinct_error_witness :
    ValidateTLSConfig fsBadCA argsW = .error (.base "failed to parse CA certificate") :=
  validate_malformed_ca_distinct_error.1 fsBadCA argsW
    "this is not a certificate" rfl rfl rfl rfl rfl rfl

/-- C5: when the cert/key pair loads and the CA file is readable but not
valid PEM data, `createTLSConfig` succeeds (with an empty root pool, the
failed append being ignored), while `ValidateTLSConfig` on the same state
detects the malformed CA. -/
theorem loader_ignores_malformed_ca (fs : FS) (args : MigrateArgs) (ca : String)
    (hc : fs.stat (args.CertDir ++ "/" ++ args.CertName) = .ok ())
    (hk : fs.stat (args.CertDir ++ "/" ++ args.KeyName) = .ok ())
    (ha : fs.stat (args.CertDir ++ "/" ++ args.CAName) = .ok ())
    (hl : fs.loadKeyPair (args.CertDir ++ "/" ++ args.CertName)
      (args.CertDir ++ "/" ++ args.KeyName) = .ok ())
    (hr : fs.readFile (args.CertDir ++ "/" ++ args.CAName) = .ok ca)
    (hp : fs.pemOk ca = false) :
    (createTLSConfig fs args).1 = .ok { certificates := [()], rootCAs := [] }
    ∧ ValidateTLSConfig fs args = .error (.base "failed to parse CA certificate") := by
  constructor
  · simp [createTLSConfig, hl, hr, x509AppendCertsFromPEM, hp]
  · simp [ValidateTLSConfig, hc, hk, ha, hl, hr, x509AppendCertsFromPEM, hp]

/-- Witness for C5: concrete bad-CA filesystem state. -/
theorem loader_ignores_malformed_ca_witness :
    (createTLSConfig fsBadCA argsW).1 = .ok { certificates := [()], rootCAs := [] }
    ∧ ValidateTLSConfig fsBadCA argsW = .error (.base "failed to parse CA certificate") :=
  loader_ignores_malformed_ca fsBadCA argsW
    "this is not a certificate" rfl rfl rfl rfl rfl rfl

/-- C6: `ValidateTLSConfig` is strictly stronger than `createTLSConfig`:
whenever validation succeeds the loader succeeds on the same state, and on a
concrete state with a valid pair but non-PEM CA content the loader succeeds
while validation fails. -/
theorem validate_stronger_than_loader :
    (∀ (fs : FS) (args : MigrateArgs),
      ValidateTLSConfig fs args = .ok () →
      ∃ cfg, (createTLSConfig fs args).1 = .ok cfg)
    ∧ (∃ cfg, (createTLSConfig fsBadCA argsW).1 = .ok cfg)
    ∧ ValidateTLSConfig fsBadCA argsW = .error (.base "failed to parse CA certificate") := by
  refine ⟨?_, ⟨{ certificates := [()], rootCAs := [] }, rfl⟩, rfl⟩
  intro fs args h
  simp only [ValidateTLSConfig] at h
  split at h
  · cases h
  split at h
  · cases h
  split at h
  · cases h
  split at h
  · cases h
  split at h
  · cases h
  case _ _ _ _ _ cert hl _ caCert hr =>
    simp [createTLSConfig, hl, hr]

/-- Witness for C6: applying the refinement direction on a fully good
filesystem state. -/
theorem validate_stronger_than_loader_witness :
    ∃ cfg, (createTLSConfig fsAllGood argsW).1 = .ok cfg :=
  validate_stronger_than_loader.1 fsAllGood argsW rfl

/-- C2: with both version lists non-empty, `RunSyncMigrate` returns the
`cannot provide both up and down migrations` error with an empty event
trace, so before any file or network call (DSN parse, certificate loading,
connection open); the `async` `RunE` rejects the same combination with the
same error and an empty trace, so before opening a connection. -/
theorem up_down_mutually_exclusive_before_io :
    (∀ (env : Env) (args : MigrateArgs),
      args.UpVersions ≠ [] → args.DownVersions ≠ [] →
      RunSyncMigrate env args =
        (.error (.base "cannot provide both up and down migrations"), []))
    ∧ (∀ (d r c v up down : String) (us ds : List Nat) (env : Env),
      parseVersions up = .ok us → parseVersions down = .ok ds →
      us ≠ [] → ds ≠ [] →
      asyncRunE (subcommandFlags d r c v up down) env =
        (.err (.base "cannot provide both up and down migrations"), [])) := by
  constructor
  · intro env args hu hd
    simp [RunSyncMigrate, hu, hd]
  · intro d r c v up down us ds env hup hdown hus hds
    simp [asyncRunE, subcommandFlags, lookupFlag, List.find?, hup, hdown, hus, hds]

/-- Witness for C2: concrete rejection on both paths. -/
theorem up_down_mutually_exclusive_before_io_witness :
    RunSyncMigrate envAllGood argsBothUpDown =
      (.error (.base "cannot provide both up and down migrations"), [])
    ∧ asyncRunE (subcommandFlags "" "false" "cluster" "false" "1" "2") envAllGood =
      (.err (.base "cannot provide both up and down migrations"), []) :=
  ⟨up_down_mutually_exclusive_before_io.1 envAllGood argsBothUpDown
      (by simp [argsBothUpDown, argsW]) (by simp [argsBothUpDown, argsW]),
   up_down_mutually_exclusive_before_io.2 "" "false" "cluster" "false" "1" "2"
      [1] [2] envAllGood (by rfl) (by rfl) (by simp) (by simp)⟩

/-- C3: whenever `TestConnection` reaches a successful connection open, the
connection is closed before it returns, on both outcomes of the ping. -/
theorem test_connection_always_closes (env : Env) (args : MigrateArgs)
    (hdsn : env.parseDSN args.DSN = .ok ())
    (htls : ∃ cfg, (createTLSConfig env.fs args).1 = .ok cfg)
    (hopen : env.openConn = .ok ()) :
    Event.closeCall ∈ (TestConnection env args).2 := by
  obtain ⟨cfg, htls⟩ := htls
  cases hping : env.ping <;>
    simp [TestConnection, hdsn, htls, hopen, hping]

/-- Witness for C3: the connection is closed even when the ping fails. -/
theorem test_connection_always_closes_witness :
    Event.closeCall ∈ (TestConnection envPingFail argsW).2 :=
  test_connection_always_closes envPingFail argsW rfl
    ⟨{ certificates := [()], rootCAs := ["PEM CERTIFICATE DATA"] }, rfl⟩ rfl

/-- C7: with an empty down list, once every earlier stage succeeds,
`RunSyncMigrate` calls `MigrateUpSync` with exactly the given up list — the
call happens even for an empty up list, whose result it returns. -/
theorem empty_up_forwarded_to_migrate_up (env : Env) (args : MigrateArgs)
    (hdown : args.DownVersions = [])
    (hdsn : env.parseDSN args.DSN = .ok ())
    (htls : ∃ cfg, (createTLSConfig env.fs args).1 = .ok cfg)
    (hopen : env.openConn = .ok ())
    (hmgr : env.newManager = .ok ())
    (hboot : env.bootstrap = .ok ())
    (hsq : env.runSquashed = .ok ()) :
    (RunSyncMigrate env args).1 = env.migrateUpSync args.UpVersions
    ∧ Event.migrateUpSyncCall args.UpVersions ∈ (RunSyncMigrate env args).2 := by
  obtain ⟨cfg, htls⟩ := htls
  simp [RunSyncMigrate, hdown, hdsn, htls, hopen, hmgr, hboot, hsq]

/-- Witness for C7: a run with an empty up list still calls `MigrateUpSync`
(with the empty list). -/
theorem empty_up_forwarded_to_migrate_up_witness :
    (RunSyncMigrate envAllGood argsW).1 = envAllGood.migrateUpSync []
    ∧ Event.migrateUpSyncCall [] ∈ (RunSyncMigrate envAllGood argsW).2 :=
  empty_up_forwarded_to_migrate_up envAllGood argsW rfl rfl
    ⟨{ certificates := [()], rootCAs := ["PEM CERTIFICATE DATA"] }, rfl⟩ rfl rfl rfl rfl

/-- Counterexample to C8 as stated: when the final up-migration stage fails,
`RunSyncMigrate` returns the manager's error unmodified — `boom` is not
wrapped with any stage-identifying text. -/
theorem run_sync_migrate_unwrapped_final_error :
    (RunSyncMigrate envUpFail argsW).1 = .error (.base "boom")
    ∧ (GoErr.base "boom").isWrap = false :=
  ⟨rfl, rfl⟩

/-- C8 (amended): `RunSyncMigrate` runs its stages in the fixed order
argument check, DSN parse, TLS config build, connection open, manager
construction, bootstrap, squashed migrations, then exactly one of
migrate-down (when the down list is non-empty) or migrate-up; a failing
stage stops the sequence (the trace is exactly the calls made so far, each
once — no retries) and its error is returned wrapped with the stage's text,
except the final migrate-down/up stage, whose error is returned to the
caller unmodified. -/
theorem run_sync_migrate_stage_order :
    (∀ (env : Env) (args : MigrateArgs),
      (args.UpVersions.length != 0 && args.DownVersions.length != 0) = true →
      RunSyncMigrate env args =
        (.error (.base "cannot provide both up and down migrations"), []))
    ∧ (∀ (env : Env) (args : MigrateArgs) (e : GoErr),
      (args.UpVersions.length != 0 && args.DownVersions.length != 0) = false →
      env.parseDSN args.DSN = .error e →
      RunSyncMigrate env args =
        (.error (.wrap "failed to parse dsn" e), [.parseDSNCall args.DSN]))
    ∧ (∀ (env : Env) (args : MigrateArgs) (e : GoErr),
      (args.UpVersions.length != 0 && args.DownVersions.length != 0) = false →
      env.parseDSN args.DSN = .ok () →
      (createTLSConfig env.fs args).1 = .error e →
      RunSyncMigrate env args =
        (.error (.wrap "failed to get tls config" e),
         Event.parseDSNCall args.DSN :: (createTLSConfig env.fs args).2))
    ∧ (∀ (env : Env) (args : MigrateArgs) (cfg : TLSConfig) (e : GoErr),
      (args.UpVersions.length != 0 && args.DownVersions.length != 0) = false →
      env.parseDSN args.DSN = .ok () →
      (createTLSConfig env.fs args).1 = .ok cfg →
      env.openConn = .error e →
      RunSyncMigrate env args =
        (.error (.wrap "failed to open connection" e),
         Event.parseDSNCall args.DSN :: (createTLSConfig env.fs args).2
           ++ [.openCall]))
    ∧ (∀ (env : Env) (args : MigrateArgs) (cfg : TLSConfig) (e : GoErr),
      (args.UpVersions.length != 0 && args.DownVersions.length != 0) = false →
      env.parseDSN args.DSN = .ok () →
      (createTLSConfig env.fs args).1 = .ok cfg →
      env.openConn = .ok () →
      env.newManager = .error e →
      RunSyncMigrate env args =
        (.error (.wrap "failed to create migration manager" e),
         Event.parseDSNCall args.DSN :: (createTLSConfig env.fs args).2
           ++ [.openCall, .newManagerCall]))
    ∧ (∀ (env : Env) (args : MigrateArgs) (cfg : TLSConfig) (e : GoErr),
      (args.UpVersions.length != 0 && args.DownVersions.length != 0) = false →
      env.parseDSN args.DSN = .ok () →
      (createTLSConfig env.fs args).1 = .ok cfg →
      env.openConn = .ok () →
      env.newManager = .ok () →
      env.bootstrap = .error e →
      RunSyncMigrate env args =
        (.error (.wrap "failed to bootstrap migrations" e),
         Event.parseDSNCall args.DSN :: (createTLSConfig env.fs args).2
           ++ [.openCall, .newManagerCall, .bootstrapCall]))
    ∧ (∀ (env : Env) (args : MigrateArgs) (cfg : TLSConfig) (e : GoErr),
      (args.UpVersions.length != 0 && args.DownVersions.length != 0) = false →
      env.parseDSN args.DSN = .ok () →
      (createTLSConfig env.fs args).1 = .ok cfg →
      env.openConn = .ok () →
      env.newManager = .ok () →
      env.bootstrap = .ok () →
      env.runSquashed = .error e →
      RunSyncMigrate env args =
        (.error (.wrap "failed to run squashed migrations" e),
         Event.parseDSNCall args.DSN :: (createTLSConfig env.fs args).2
           ++ [.openCall, .newManagerCall, .bootstrapCall, .runSquashedCall]))
    ∧ (∀ (env : Env) (args : MigrateArgs) (cfg : TLSConfig),
      args.UpVersions = [] →
      args.DownVersions ≠ [] →
      env.parseDSN args.DSN = .ok () →
      (createTLSConfig env.fs args).1 = .ok cfg →
      env.openConn = .ok () →
      env.newManager = .ok () →
      env.bootstrap = .ok () →
      env.runSquashed = .ok () →
      RunSyncMigrate env args =
        (env.migrateDownSync args.DownVersions,
         Event.parseDSNCall args.DSN :: (createTLSConfig env.fs args).2
           ++ [.openCall, .newManagerCall, .bootstrapCall, .runSquashedCall,
               .migrateDownSyncCall args.DownVersions]))
    ∧ (∀ (env : Env) (args : MigrateArgs) (cfg : TLSConfig),
      args.DownVersions = [] →
      env.parseDSN args.DSN = .ok () →
      (createTLSConfig env.fs args).1 = .ok cfg →
      env.openConn = .ok () →
      env.newManager = .ok () →
      env.bootstrap = .ok () →
      env.runSquashed = .ok () →
      RunSyncMigrate env args =
        (env.migrateUpSync args.UpVersions,
         Event.parseDSNCall args.DSN :: (createTLSConfig env.fs args).2
           ++ [.openCall, .newManagerCall, .bootstrapCall, .runSquashedCall,
               .migrateUpSyncCall args.UpVersions])) := by
  refine ⟨?_, ?_, ?_, ?_, ?_, ?_, ?_, ?_, ?_⟩
  · intro env args hb
    simp [RunSyncMigrate, hb]
  · intro env args e hb hdsn
    simp [RunSyncMigrate, hb, hdsn]
  · intro env args e hb hdsn htls
    simp [RunSyncMigrate, hb, hdsn, htls]
  · intro env args cfg e hb hdsn htls hopen
    simp [RunSyncMigrate, hb, hdsn, htls, hopen]
  · intro env args cfg e hb hdsn htls hopen hmgr
    simp [RunSyncMigrate, hb, hdsn, htls, hopen, hmgr]
  · intro env args cfg e hb hdsn htls hopen hmgr hboot
    simp [RunSyncMigrate, hb, hdsn, htls, hopen, hmgr, hboot]
  · intro env args cfg e hb hdsn htls hopen hmgr hboot hsq
    simp [RunSyncMigrate, hb, hdsn, htls, hopen, hmgr, hboot, hsq]
  · intro env args cfg hup hdown hdsn htls hopen hmgr hboot hsq
    simp [RunSyncMigrate, hup, hdown, hdsn, htls, hopen, hmgr, hboot, hsq]
  · intro env args cfg hdown hdsn htls hopen hmgr hboot hsq
    simp [RunSyncMigrate, hdown, hdsn, htls, hopen, hmgr, hboot, hsq]

/-- Witness for C8 (amended): a concrete failing DSN parse stops the run at
that stage with the stage-wrapped error and only the DSN-parse call in the
trace. -/
theorem run_sync_migrate_stage_order_witness :
    RunSyncMigrate envParseFail argsW =
      (.error (.wrap "failed to parse dsn" (.base "bad dsn")),
       [.parseDSNCall argsW.DSN]) :=
  run_sync_migrate_stage_order.2.1 envParseFail argsW (.base "bad dsn") rfl rfl

/-- C1 (refuting theorem): no `cert-dir` flag is registered on the `sync`
subcommand or inherited from the root command, so the flag lookup comes back
`none` and the `RunE` body's unguarded dereference panics — on any
invocation with well-formed `--up`/`--down` values, before `RunSyncMigrate`
is reached (empty trace). -/
theorem sync_cert_flags_not_registered :
    lookupFlag (subcommandFlags "" "false" "cluster" "false" "1" "") "cert-dir" = none
    ∧ ∀ env : Env,
      syncRunE (subcommandFlags "" "false" "cluster" "false" "1" "") env =
        (.panicked nilFlagPanic, []) := by
  exact ⟨rfl, fun _ => rfl⟩

/-- `parseVersions` is the loop started on the comma-split tokens with an
empty accumulator. -/
theorem parseVersions_eq_loop (s : String) :
    parseVersions s = parseVersionsLoop (stringsSplitComma s) [] := rfl

/-- One step of the parsing loop: skip an empty token, fail on an unparsable
one, append a parsed one. -/
theorem parseVersionsLoop_cons (t : String) (l : List String) (acc : List Nat) :
    parseVersionsLoop (t :: l) acc =
      if t = "" then parseVersionsLoop l acc
      else
        match parseUint64 t with
        | none => .error (.wrap "failed to parse version" (.base t))
        | some v => parseVersionsLoop l (acc ++ [v]) := by
  by_cases h : t = ""
  · subst h; rfl
  · cases hp : parseUint64 t <;>
      simp [parseVersionsLoop, List.foldlM, h, hp, Bind.bind, Except.bind]

/-- If some non-empty token of the list is not a valid `uint64`, the parsing
loop returns a `failed to parse version` error, from any accumulator. -/
theorem parseVersionsLoop_malformed (l : List String) :
    ∀ acc : List Nat,
      (∃ t, t ∈ l ∧ t ≠ "" ∧ parseUint64 t = none) →
      ∃ tok, parseVersionsLoop l acc =
        .error (.wrap "failed to parse version" (.base tok)) := by
  induction l with
  | nil =>
      intro acc ⟨t, ht, _⟩
      exact absurd ht (List.not_mem_nil t)
  | cons a l ih =>
      intro acc ⟨t, ht, hne, hp⟩
      rw [parseVersionsLoop_cons]
      by_cases ha : a = ""
      · rw [if_pos ha]
        refine ih acc ⟨t, ?_, hne, hp⟩
        rcases List.mem_cons.mp ht with h | h
        · exact absurd (h ▸ ha) hne
        · exact h
      · rw [if_neg ha]
        cases hpa : parseUint64 a with
        | none => exact ⟨a, rfl⟩
        | some v =>
            refine ih (acc ++ [v]) ⟨t, ?_, hne, hp⟩
            rcases List.mem_cons.mp ht with h | h
            · rw [h] at hp; rw [hp] at hpa; cases hpa
            · exact h

/-- If every non-empty token of the list is a valid `uint64`, the parsing
loop succeeds, from any accumulator. -/
theorem parseVersionsLoop_ok (l : List String) :
    ∀ acc : List Nat,
      (∀ t, t ∈ l → t ≠ "" → ∃ v, parseUint64 t = some v) →
      ∃ vs, parseVersionsLoop l acc = .ok vs := by
  induction l with
  | nil => exact fun acc _ => ⟨acc, rfl⟩
  | cons a l ih =>
      intro acc hall
      rw [parseVersionsLoop_cons]
      by_cases ha : a = ""
      · rw [if_pos ha]
        exact ih acc fun t ht => hall t (List.mem_cons_of_mem a ht)
      · rw [if_neg ha]
        obtain ⟨v, hv⟩ := hall a (List.mem_cons_self a l) ha
        rw [hv]
        exact ih (acc ++ [v]) fun t ht => hall t (List.mem_cons_of_mem a ht)

/-- If the `--up` value fails to parse, the `sync` `RunE` returns that error
with an empty trace. -/
theorem syncRunE_up_parse_error (d r c v up down : String) (env : Env)
    (e : GoErr) (h : parseVersions up = .error e) :
    syncRunE (subcommandFlags d r c v up down) env = (.err e, []) := by
  simp [syncRunE, subcommandFlags, lookupFlag, List.find?, h]

/-- If the `--up` value parses but the `--down` value fails to parse, the
`sync` `RunE` returns the down error with an empty trace. -/
theorem syncRunE_down_parse_error (d r c v up down : String) (env : Env)
    (us : List Nat) (hok : parseVersions up = .ok us)
    (e : GoErr) (h : parseVersions down = .error e) :
    syncRunE (subcommandFlags d r c v up down) env = (.err e, []) := by
  simp [syncRunE, subcommandFlags, lookupFlag, List.find?, hok, h]

/-- C9: `--up "1,2,3"` parses to the ordered list `[1, 2, 3]`, and whenever
the `--up` or the `--down` value contains a (non-empty) token that is not a
valid base-10 `uint64`, the `sync` `RunE` returns a
`failed to parse version` error with an empty trace — `RunSyncMigrate` (and
so the migrator) is never invoked. -/
theorem sync_version_parse_errors_before_migrator :
    parseVersions "1,2,3" = .ok [1, 2, 3]
    ∧ ∀ (d r c v up down : String) (env : Env),
      ((∃ t, t ∈ stringsSplitComma up ∧ t ≠ "" ∧ parseUint64 t = none)
        ∨ (∃ t, t ∈ stringsSplitComma down ∧ t ≠ "" ∧ parseUint64 t = none)) →
      ∃ tok, syncRunE (subcommandFlags d r c v up down) env =
        (.err (.wrap "failed to parse version" (.base tok)), []) := by
  constructor
  · rfl
  · intro d r c v up down env h
    by_cases hup : ∃ t, t ∈ stringsSplitComma up ∧ t ≠ "" ∧ parseUint64 t = none
    · obtain ⟨tok, htok⟩ := parseVersionsLoop_malformed (stringsSplitComma up) [] hup
      exact ⟨tok, syncRunE_up_parse_error d r c v up down env _
        ((parseVersions_eq_loop up).trans htok)⟩
    · have hdn : ∃ t, t ∈ stringsSplitComma down ∧ t ≠ "" ∧ parseUint64 t = none := by
        rcases h with h | h
        · exact absurd h hup
        · exact h
      have hupok : ∀ t, t ∈ stringsSplitComma up → t ≠ "" → ∃ v, parseUint64 t = some v := by
        intro t ht hne
        cases hpt : parseUint64 t with
        | none => exact absurd ⟨t, ht, hne, hpt⟩ hup
        | some v => exact ⟨v, rfl⟩
      obtain ⟨us, hus⟩ := parseVersionsLoop_ok (stringsSplitComma up) [] hupok
      obtain ⟨tok, htok⟩ := parseVersionsLoop_malformed (stringsSplitComma down) [] hdn
      exact ⟨tok, syncRunE_down_parse_error d r c v up down env us
        ((parseVersions_eq_loop up).trans hus)
        _ ((parseVersions_eq_loop down).trans htok)⟩

/-- Witness for C9: a malformed token in the `--up` value and, separately,
in the `--down` value, each abort the `sync` `RunE` before the migrator. -/
theorem sync_version_parse_errors_before_migrator_witness :
    (∃ tok, syncRunE (subcommandFlags "" "false" "cluster" "false" "1,x,3" "") envAllGood =
      (.err (.wrap "failed to parse version" (.base tok)), []))
    ∧ (∃ tok, syncRunE (subcommandFlags "" "false" "cluster" "false" "" "2,y") envAllGood =
      (.err (.wrap "failed to parse version" (.base tok)), [])) :=
  ⟨sync_version_parse_errors_before_migrator.2 "" "false" "cluster" "false" "1,x,3" ""
      envAllGood (Or.inl ⟨"x", by decide, by decide, by decide⟩),
   sync_version_parse_errors_before_migrator.2 "" "false" "cluster" "false" "" "2,y"
      envAllGood (Or.inr ⟨"y", by decide, by decide, by decide⟩)⟩

/-- C10: the shared version-parsing loop silently skips empty tokens: the
unset default `""` parses to the empty list and `"1,,3"` parses to
`[1, 3]`. -/
theorem version_parsing_skips_empty_tokens :
    parseVersions "" = .ok [] ∧ parseVersions "1,,3" = .ok [1, 3] :=
  ⟨rfl, rfl⟩

end SchemaMigrator
